import Mathlib

/-!
# Atlas DSL core: parser, executor, element locator — a shallow embedding

This file embeds the core of the Macro-Assistant repository in Lean 4:

* `src/engines/dsl/atlas_parser.py`  — `AtlasParser` (script text → command tree),
* `src/engines/dsl/atlas_executor.py` — `AtlasExecutor` (command tree → effects),
* `src/engines/vision/template_matcher.py` — `TemplateMatcher` (on-screen locator).

Conventions of the embedding:

* Python strings are Lean `String`s; helpers named `py…` reproduce the exact
  Python `str` methods used by the source (`strip`, `rstrip`, slicing, …).
* Python dicts that the core uses (`Macro.variables`, metadata, the live
  variable store) are association lists `List (String × String)` with
  Python's assignment semantics (`dictSet`: update in place, else append).
* Python floats are modelled as `Rat`. The numeric strings the WAIT command
  and `repeat` counts feed through `float()` / `int()` are plain decimal
  forms, which `Rat` represents exactly; `pyFloat?` / `pyInt?` model
  `float()` / `int()` on those forms (exotic inputs such as `inf`, `nan`,
  underscore separators or exponents are outside the model).
* Side effects (pointer, keyboard, process spawns, sleeps) are recorded as a
  trace `List Effect`; wall-clock time is not modelled, so
  `ExecutionResult.execution_time` and the locator's deadline are abstracted
  (the locator's retry-until-deadline loop becomes a probe budget).
* Unbounded Python loops (block parsing, block execution) take an explicit
  recursion budget `fuel : Nat`, decremented on every recursive call so that
  all definitions are structurally recursive and computable; the budget is
  chosen large enough by the canonical entry points that the exhaustion
  branch is unreachable there.
-/

/-- Python `str.strip()` whitespace class (ASCII part; the scripts at hand are
ASCII on the relevant positions). -/
def isPySpace (c : Char) : Bool :=
  c = ' ' || c = '\t' || c = '\n' || c = '\r' || c = '\x0b' || c = '\x0c'

/-- Python `str.lstrip()`. -/
def pyLstrip (s : String) : String :=
  String.mk (s.data.dropWhile isPySpace)

/-- Python `str.rstrip()`. -/
def pyRstrip (s : String) : String :=
  String.mk ((s.data.reverse.dropWhile isPySpace).reverse)

/-- Python `str.strip()`. -/
def pyStrip (s : String) : String :=
  pyLstrip (pyRstrip s)

/-- Python `str.rstrip(':')` — drop every trailing colon. -/
def pyRstripColon (s : String) : String :=
  String.mk ((s.data.reverse.dropWhile (fun c => c = ':')).reverse)

/-- `len(line) - len(line.lstrip())`, the parser's indentation measure. -/
def indentOf (line : String) : Nat :=
  line.data.length - (pyLstrip line).data.length

/-- Python `s.startswith(pre)` (by code points; kernel-computable). -/
def strStarts (s pre : String) : Bool :=
  pre.data.isPrefixOf s.data

/-- Python `s.endswith(suf)`. -/
def strEnds (s suf : String) : Bool :=
  suf.data.reverse.isPrefixOf s.data.reverse

/-- Python `s[n:]` (slicing by code points). -/
def strDrop (s : String) (n : Nat) : String :=
  String.mk (s.data.drop n)

/-- Python `s[:-n]` for `n ≤ len(s)`. -/
def strDropRight (s : String) (n : Nat) : String :=
  String.mk (s.data.take (s.data.length - n))

/-- Helper of `splitOnChar`. -/
def splitOnCharAux (sep : Char) : List Char → List Char → List String
  | [], acc => [String.mk acc.reverse]
  | c :: rest, acc =>
    if c = sep then String.mk acc.reverse :: splitOnCharAux sep rest []
    else splitOnCharAux sep rest (c :: acc)

/-- Python `s.split(sep)` for a one-character separator (`'\n'`, `'+'`):
`''.split(sep) = ['']`, separators delimit possibly empty fields. -/
def splitOnChar (sep : Char) (s : String) : List String :=
  splitOnCharAux sep s.data []

/-- Python substring search `pat in s` combined with
`s.split(pat, 1)[1]`: the text after the first occurrence of `pat`,
`none` when `pat` does not occur. -/
def splitOnceAfter (pat : String) : List Char → Option String
  | [] => if pat.data.isPrefixOf ([] : List Char) then some "" else none
  | c :: rest =>
    if pat.data.isPrefixOf (c :: rest) then
      some (String.mk ((c :: rest).drop pat.data.length))
    else splitOnceAfter pat rest

/-- Python regex class `\w` (ASCII part, as used by the variable and
`set_variable` grammars). -/
def isWordChar (c : Char) : Bool :=
  c.isAlphanum || c = '_'

/-- `\s*` — drop leading whitespace. -/
def dropWs (l : List Char) : List Char :=
  l.dropWhile isPySpace

/-- `\s+` — at least one whitespace character, consumed greedily (all the
grammars continue with a non-space literal, so greedy = regex). -/
def dropWs1 : List Char → Option (List Char)
  | c :: rest => if isPySpace c then some (dropWs rest) else none
  | [] => none

/-- Match a literal character sequence. -/
def expectChars (pat : String) (l : List Char) : Option (List Char) :=
  if pat.data.isPrefixOf l then some (l.drop pat.data.length) else none

/-- `([^"]*)"` — the body of a quoted literal: everything up to the next
double quote, failing when the input ends first. -/
def takeUntilQuote : List Char → Option (List Char × List Char)
  | [] => none
  | '"' :: rest => some ([], rest)
  | c :: rest =>
    match takeUntilQuote rest with
    | some (inside, after) => some (c :: inside, after)
    | none => none

/-- `"([^"]*)"` — a double-quoted literal, returning its body and the rest. -/
def takeQuoted : List Char → Option (String × List Char)
  | '"' :: rest =>
    match takeUntilQuote rest with
    | some (inside, after) => some (String.mk inside, after)
    | none => none
  | _ => none

/-- `(\w+)` followed by further input; fails on an empty run. The grammars
follow it with a non-word literal (`=` or a closing brace), so greedy
consumption is exactly the regex behaviour. -/
def takeWord1 (l : List Char) : Option (String × List Char) :=
  match l.takeWhile isWordChar, l.dropWhile isWordChar with
  | [], _ => none
  | c :: cs, rest => some (String.mk (c :: cs), rest)

/-- `(\d+)` — a non-empty digit run, returning its value and the rest. -/
def takeDigits1 (l : List Char) : Option (Nat × List Char) :=
  match l.takeWhile Char.isDigit, l.dropWhile Char.isDigit with
  | [], _ => none
  | c :: cs, rest =>
    some ((c :: cs).foldl (fun a d => a * 10 + (d.toNat - '0'.toNat)) 0, rest)

/-- Digit-run value of a whole string, `none` unless non-empty and all digits. -/
def digitsToNat? : List Char → Option Nat
  | [] => none
  | l =>
    if l.all Char.isDigit then
      some (l.foldl (fun a d => a * 10 + (d.toNat - '0'.toNat)) 0)
    else none

/-- Python `int(s)` on the decimal integer strings fed to it by the
executor (`repeat` counts): optional surrounding whitespace, optional sign,
a non-empty digit run. -/
def pyInt? (s : String) : Option Int :=
  let l := (((s.data.dropWhile isPySpace).reverse.dropWhile isPySpace).reverse)
  match l with
  | '+' :: rest => (digitsToNat? rest).map Int.ofNat
  | '-' :: rest => (digitsToNat? rest).map (fun n => -(n : Int))
  | rest => (digitsToNat? rest).map Int.ofNat

/-- Python `float(s)` on the decimal forms the WAIT command feeds to it:
optional surrounding whitespace, optional sign, `digits`, `digits.`,
`digits.digits` or `.digits`. The result is exact as a `Rat`. -/
def pyFloat? (s : String) : Option Rat :=
  let l := (((s.data.dropWhile isPySpace).reverse.dropWhile isPySpace).reverse)
  let core : List Char → Option Rat := fun l =>
    let ip := l.takeWhile Char.isDigit
    let r1 := l.dropWhile Char.isDigit
    match r1 with
    | [] =>
      match digitsToNat? ip with
      | some n => some (n : Rat)
      | none => none
    | '.' :: r2 =>
      let fp := r2.takeWhile Char.isDigit
      let r3 := r2.dropWhile Char.isDigit
      if r3 ≠ [] then none
      else if ip = [] && fp = [] then none
      else
        some ((ip.foldl (fun a d => a * 10 + (d.toNat - '0'.toNat)) 0 : Nat) +
          (fp.foldl (fun a d => a * 10 + (d.toNat - '0'.toNat)) 0 : Nat) /
            ((10 : Rat) ^ fp.length))
    | _ => none
  match l with
  | '+' :: rest => core rest
  | '-' :: rest => (core rest).map (fun q => -q)
  | rest => core rest

/-- Python `int(x)` on a float: truncation toward zero. -/
def pyTrunc (q : Rat) : Int :=
  if 0 ≤ q then q.floor else -((-q).floor)

/-- The Python dicts of the core, keys in insertion order. -/
abbrev Dict := List (String × String)

/-- Python `d[k] = v`: update in place when the key exists, else append. -/
def dictSet (d : Dict) (k v : String) : Dict :=
  match d with
  | [] => [(k, v)]
  | (k', v') :: rest => if k' = k then (k, v) :: rest else (k', v') :: dictSet rest k v

/-- Python `d.get(k)`. -/
def dictGet? (d : Dict) (k : String) : Option String :=
  match d with
  | [] => none
  | (k', v) :: rest => if k' = k then some v else dictGet? rest k

/-- Python `d.get(k, default)`. -/
def dictGetD (d : Dict) (k dflt : String) : String :=
  (dictGet? d k).getD dflt

/-- Remove every entry with the given key (a specification-side helper for
comparing metadata dictionaries up to one key). -/
def dictErase (d : Dict) (k : String) : Dict :=
  d.filter (fun p => p.1 ≠ k)

/-! ## Command model (`atlas_parser.py`) -/

/-- `CommandType` of `atlas_parser.py` (names adapted where Python's clash
with Lean keywords: `open` ↦ `openApp`, `type` ↦ `typeText`, `if` ↦ `ifCmd`, …). -/
inductive CommandType where
  | openApp
  | click
  | doubleClick
  | rightClick
  | typeText
  | paste
  | press
  | hotkey
  | scroll
  | wait
  | sleepCmd
  | seleniumInit
  | seleniumClick
  | seleniumType
  | seleniumClose
  | systemCommand
  | setVariable
  | getVariable
  | ifCmd
  | elseCmd
  | endCmd
  | repeatCmd
  | whileCmd
  | forEach
  | tryCmd
  | catchCmd
  | log
  | abort
  | comment
deriving DecidableEq, Repr

/-- A value in `AtlasCommand.parameters` (the source stores strings and ints
there: the click kind tag and coordinates). -/
inductive PValue where
  | s (v : String)
  | i (v : Int)
deriving DecidableEq, Repr

/-- `parameters.get(k)`. -/
def paramGet? (ps : List (String × PValue)) (k : String) : Option PValue :=
  match ps with
  | [] => none
  | (k', v) :: rest => if k' = k then some v else paramGet? rest k

/-- `AtlasCommand` of `atlas_parser.py`. -/
structure AtlasCommand where
  commandType : CommandType
  target : Option String
  value : Option String
  parameters : List (String × PValue)
  lineNumber : Nat
  rawLine : String
  indentLevel : Nat
deriving DecidableEq, Repr

/-- A node of the parsed tree: `AtlasCommand` or `AtlasBlock` of
`atlas_parser.py` (the block's fields `block_type`, `condition`, `commands`,
`line_number`, `indent_level` are inlined into the constructor). -/
inductive AtlasNode where
  | cmd (c : AtlasCommand)
  | block (blockType : String) (condition : Option String)
      (commands : List AtlasNode) (lineNumber : Nat) (indentLevel : Nat)

/-- `AtlasMacro` of `atlas_parser.py`. -/
structure AtlasMacro where
  title : String
  description : String
  commands : List AtlasNode
  variables' : Dict
  metadata : Dict
  filePath : Option String

/-- `ExecutionResult` of `atlas_executor.py`. The source also carries
`data` (never populated by this executor) and `execution_time` (wall clock,
outside the model); both are omitted. -/
structure ExecutionResult where
  success : Bool
  message : String
deriving DecidableEq, Repr

/-- The observable actions the executor dispatches to its actuators
(pointer/keyboard injection, process spawns, sleeps, log records).
`templateClickStub` records the template-click path of `atlas_executor.py`,
which logs a warning and performs no pointer action. -/
inductive Effect where
  | openApp (name : String)
  | clickAt (x y : Int)
  | typeText (text : String)
  | pressKey (key : String)
  | hotkeyCombo (keys : List String)
  | templateClickStub (name : String)
  | sleepFor (seconds : Rat)
  | shellRun (cmd : String)
  | logMsg (text : String)
  | seleniumInit (url : String)
  | seleniumClick (selector : String)
  | seleniumType (selector text : String)
  | seleniumClose
deriving DecidableEq, Repr

/-- The executor's external world: whether `open -a name` succeeds, and the
exit code / stderr of a shell command. Pointer and keyboard injection are
modelled as always succeeding (their failure paths in the source are import
errors, outside the model). -/
structure Env where
  openOk : String → Bool
  shellExit : String → Int
  shellStderr : String → String

/-! ## Parser (`atlas_parser.py`, class `AtlasParser`) -/

namespace AtlasParser

/-- The coordinate-click grammar
`click\s*\(\s*(\d+)\s*,\s*(\d+)\s*\)` of `_parse_single_command`
(`re.match`: anchored at the start, trailing text permitted). -/
def clickCoord? (l : List Char) : Option (Nat × Nat) :=
  match expectChars "click" l with
  | none => none
  | some r0 =>
    match expectChars "(" (dropWs r0) with
    | none => none
    | some r1 =>
      match takeDigits1 (dropWs r1) with
      | none => none
      | some (x, r2) =>
        match expectChars "," (dropWs r2) with
        | none => none
        | some r3 =>
          match takeDigits1 (dropWs r3) with
          | none => none
          | some (y, r4) =>
            match expectChars ")" (dropWs r4) with
            | none => none
            | some _ => some (x, y)

/-- `type\s+"([^"]*)"` (anchored, trailing text permitted). -/
def typeArg? (l : List Char) : Option String :=
  match expectChars "type" l with
  | none => none
  | some r0 =>
    match dropWs1 r0 with
    | none => none
    | some r1 => (takeQuoted r1).map Prod.fst

/-- `selenium_init\s+url="([^"]*)"`. -/
def seleniumInitArg? (l : List Char) : Option String :=
  match expectChars "selenium_init" l with
  | none => none
  | some r0 =>
    match dropWs1 r0 with
    | none => none
    | some r1 =>
      match expectChars "url=" r1 with
      | none => none
      | some r2 => (takeQuoted r2).map Prod.fst

/-- `selenium_click\s+selector="([^"]*)"`. -/
def seleniumClickArg? (l : List Char) : Option String :=
  match expectChars "selenium_click" l with
  | none => none
  | some r0 =>
    match dropWs1 r0 with
    | none => none
    | some r1 =>
      match expectChars "selector=" r1 with
      | none => none
      | some r2 => (takeQuoted r2).map Prod.fst

/-- `selenium_type\s+selector="([^"]*)"\s+text="([^"]*)"`. -/
def seleniumTypeArg? (l : List Char) : Option (String × String) :=
  match expectChars "selenium_type" l with
  | none => none
  | some r0 =>
    match dropWs1 r0 with
    | none => none
    | some r1 =>
      match expectChars "selector=" r1 with
      | none => none
      | some r2 =>
        match takeQuoted r2 with
        | none => none
        | some (sel, r3) =>
          match dropWs1 r3 with
          | none => none
          | some r4 =>
            match expectChars "text=" r4 with
            | none => none
            | some r5 => (takeQuoted r5).map (fun p => (sel, p.1))

/-- `set_variable\s+(\w+)="([^"]*)"`. -/
def setVariableArg? (l : List Char) : Option (String × String) :=
  match expectChars "set_variable" l with
  | none => none
  | some r0 =>
    match dropWs1 r0 with
    | none => none
    | some r1 =>
      match takeWord1 r1 with
      | none => none
      | some (name, r2) =>
        match expectChars "=" r2 with
        | none => none
        | some r3 => (takeQuoted r3).map (fun p => (name, p.1))

/-- `system_command\s+"([^"]*)"`. -/
def systemCommandArg? (l : List Char) : Option String :=
  match expectChars "system_command" l with
  | none => none
  | some r0 =>
    match dropWs1 r0 with
    | none => none
    | some r1 => (takeQuoted r1).map Prod.fst

/-- `log\s+"([^"]*)"`. -/
def logArg? (l : List Char) : Option String :=
  match expectChars "log" l with
  | none => none
  | some r0 =>
    match dropWs1 r0 with
    | none => none
    | some r1 => (takeQuoted r1).map Prod.fst

/-- `_parse_single_command(line, line_number, raw_line)`: the ordered
prefix-dispatch chain of `atlas_parser.py`. A branch whose prefix matches
but whose pattern then fails falls out of the `elif` chain and returns
`None` (only a line matching no prefix at all reaches the final `else`
that produces the COMMENT command). -/
def parseSingleCommand (line : String) (lineNumber : Nat) (rawLine : String) :
    Option AtlasCommand :=
  if pyStrip line = "" then none
  else
    let indentLevel := indentOf rawLine
    if strStarts line "open " then
      some ⟨CommandType.openApp, some (pyStrip (strDrop line 5)), none, [],
        lineNumber, rawLine, indentLevel⟩
    else if strStarts line "click " then
      match clickCoord? line.data with
      | some (x, y) =>
        some ⟨CommandType.click, none, none,
          [("x", PValue.i x), ("y", PValue.i y), ("type", PValue.s "coordinates")],
          lineNumber, rawLine, indentLevel⟩
      | none =>
        some ⟨CommandType.click, some (pyStrip (strDrop line 6)), none,
          [("type", PValue.s "template")], lineNumber, rawLine, indentLevel⟩
    else if strStarts line "type " then
      match typeArg? line.data with
      | some text =>
        some ⟨CommandType.typeText, none, some text, [], lineNumber, rawLine, indentLevel⟩
      | none => none
    else if strStarts line "wait " then
      some ⟨CommandType.wait, none, some (pyStrip (strDrop line 5)), [],
        lineNumber, rawLine, indentLevel⟩
    else if strStarts line "press " then
      some ⟨CommandType.press, some (pyStrip (strDrop line 6)), none, [],
        lineNumber, rawLine, indentLevel⟩
    else if strStarts line "hotkey " then
      some ⟨CommandType.hotkey, some (pyStrip (strDrop line 7)), none, [],
        lineNumber, rawLine, indentLevel⟩
    else if strStarts line "selenium_init " then
      match seleniumInitArg? line.data with
      | some url =>
        some ⟨CommandType.seleniumInit, some url, none, [], lineNumber, rawLine, indentLevel⟩
      | none => none
    else if strStarts line "selenium_click " then
      match seleniumClickArg? line.data with
      | some sel =>
        some ⟨CommandType.seleniumClick, some sel, none, [], lineNumber, rawLine, indentLevel⟩
      | none => none
    else if strStarts line "selenium_type " then
      match seleniumTypeArg? line.data with
      | some (sel, text) =>
        some ⟨CommandType.seleniumType, some sel, some text, [],
          lineNumber, rawLine, indentLevel⟩
      | none => none
    else if line = "selenium_close" then
      some ⟨CommandType.seleniumClose, none, none, [], lineNumber, rawLine, indentLevel⟩
    else if strStarts line "set_variable " then
      match setVariableArg? line.data with
      | some (name, value) =>
        some ⟨CommandType.setVariable, some name, some value, [],
          lineNumber, rawLine, indentLevel⟩
      | none => none
    else if strStarts line "system_command " then
      match systemCommandArg? line.data with
      | some cmd =>
        some ⟨CommandType.systemCommand, none, some cmd, [], lineNumber, rawLine, indentLevel⟩
      | none => none
    else if strStarts line "log " then
      match logArg? line.data with
      | some msg =>
        some ⟨CommandType.log, none, some msg, [], lineNumber, rawLine, indentLevel⟩
      | none => none
    else if line = "abort" then
      some ⟨CommandType.abort, none, none, [], lineNumber, rawLine, indentLevel⟩
    else
      some ⟨CommandType.comment, none, some line, [], lineNumber, rawLine, indentLevel⟩

/-- One line of `_extract_metadata`: `#`-comment lines are mined for
`Title:` / `Description:` / `Date:` / `Platform:` (an `elif` chain on
substring containment, value = text after the first occurrence, stripped). -/
def metaStep (d : Dict) (rawLine : String) : Dict :=
  let line := pyStrip rawLine
  if strStarts line "#" then
    match splitOnceAfter "Title:" line.data with
    | some rest => dictSet d "title" (pyStrip rest)
    | none =>
      match splitOnceAfter "Description:" line.data with
      | some rest => dictSet d "description" (pyStrip rest)
      | none =>
        match splitOnceAfter "Date:" line.data with
        | some rest => dictSet d "date" (pyStrip rest)
        | none =>
          match splitOnceAfter "Platform:" line.data with
          | some rest => dictSet d "platform" (pyStrip rest)
          | none => d
  else d

/-- `_extract_metadata(lines)`. The source seeds the dict with
`'generated': datetime.now().isoformat()`; the clock reading is the
explicit parameter `now` here. -/
def extractMetadata (now : String) (lines : List String) : Dict :=
  lines.foldl metaStep [("generated", now), ("platform", "macOS"), ("version", "1.0")]

/-- The block-opening prefixes recognized by `_parse_commands`. -/
def startsBlockTop (s : String) : Bool :=
  strStarts s "if " || strStarts s "repeat " || strStarts s "while " ||
    strStarts s "for_each " || strStarts s "try:"

/-- The block-opening prefixes recognized inside `_parse_block`
(note: no `for_each `, exactly as in the source). -/
def startsBlockNested (s : String) : Bool :=
  strStarts s "if " || strStarts s "repeat " || strStarts s "while " ||
    strStarts s "try:"

mutual

/-- `_parse_block(lines, start_index)` → `(block, consumed_lines)`.
On budget exhaustion (unreachable from `parseContent`) it reports an empty
`unknown` block and a consumed count past the end of the input. -/
def parseBlock (lines : List String) : Nat → Nat → AtlasNode × Nat
  | 0, startIndex => (AtlasNode.block "unknown" none [] (startIndex + 1) 0, lines.length + 1)
  | fuel + 1, startIndex =>
    let raw := lines.getD startIndex ""
    let startLine := pyStrip raw
    let indentLevel := indentOf raw
    let header :=
      if strStarts startLine "if " then ("if", some (pyRstripColon (strDrop startLine 3)))
      else if strStarts startLine "repeat " then
        ("repeat", some (pyRstripColon (strDrop startLine 7)))
      else if strStarts startLine "try:" then ("try", (none : Option String))
      else ("unknown", some (pyRstripColon startLine))
    let body := parseBlockLoop lines fuel indentLevel (startIndex + 1) []
    (AtlasNode.block header.1 header.2 body.1 (startIndex + 1) indentLevel,
      body.2 - startIndex + 1)
termination_by structural fuel => fuel

/-- The body-collecting `while` loop of `_parse_block`: skip blanks, stop at
`end` / `catch:` / `else:` at or below the header's indentation or at any
dedented line (which the source then also counts as consumed), recurse into
nested blocks, parse deeper-indented lines as commands (a line whose grammar
fails contributes nothing). Returns the children and the index the loop
stopped at. -/
def parseBlockLoop (lines : List String) :
    Nat → Nat → Nat → List AtlasNode → List AtlasNode × Nat
  | 0, _, i, acc => (acc, i)
  | fuel + 1, indentLevel, i, acc =>
    if i < lines.length then
      let line := pyRstrip (lines.getD i "")
      if pyStrip line = "" then parseBlockLoop lines fuel indentLevel (i + 1) acc
      else
        let currentIndent := indentOf line
        let cleanLine := pyStrip line
        if currentIndent ≤ indentLevel &&
            (cleanLine = "end" || cleanLine = "catch:" || cleanLine = "else:") then
          (acc, i)
        else if indentLevel < currentIndent then
          if startsBlockNested cleanLine then
            let nested := parseBlock lines fuel i
            parseBlockLoop lines fuel indentLevel (i + nested.2) (acc ++ [nested.1])
          else
            match parseSingleCommand cleanLine (i + 1) line with
            | some c => parseBlockLoop lines fuel indentLevel (i + 1) (acc ++ [AtlasNode.cmd c])
            | none => parseBlockLoop lines fuel indentLevel (i + 1) acc
        else (acc, i)
    else (acc, i)
termination_by structural fuel => fuel

end

/-- The top-level scan of `_parse_commands`: skip blank and comment lines,
hand block-opening lines to `parseBlock`, parse the rest as single commands;
a top-level `set_variable` command additionally pre-seeds the variables
dict. Returns `(commands, variables)`. -/
def parseCommandsLoop (lines : List String) :
    Nat → Nat → List AtlasNode → Dict → List AtlasNode × Dict
  | 0, _, acc, vars => (acc, vars)
  | fuel + 1, i, acc, vars =>
    if i < lines.length then
      let line := pyRstrip (lines.getD i "")
      if pyStrip line = "" || strStarts (pyStrip line) "#" then
        parseCommandsLoop lines fuel (i + 1) acc vars
      else
        let cleanLine := pyStrip line
        if startsBlockTop cleanLine then
          let blk := parseBlock lines fuel i
          parseCommandsLoop lines fuel (i + blk.2) (acc ++ [blk.1]) vars
        else
          match parseSingleCommand cleanLine (i + 1) line with
          | some c =>
            let vars' :=
              if c.commandType = CommandType.setVariable then
                dictSet vars (c.target.getD "") (c.value.getD "")
              else vars
            parseCommandsLoop lines fuel (i + 1) (acc ++ [AtlasNode.cmd c]) vars'
          | none => parseCommandsLoop lines fuel (i + 1) acc vars
    else (acc, vars)
termination_by structural fuel => fuel

/-- `_parse_commands(lines)` with a recursion budget that the line-consuming
loops can never exhaust (every loop step consumes at least one line and the
nesting depth is bounded by the line count). -/
def parseCommands (lines : List String) : List AtlasNode × Dict :=
  parseCommandsLoop lines ((lines.length + 2) * (lines.length + 2)) 0 [] []

/-- `parse_content(content, file_path)` of `atlas_parser.py`. The
`'generated'` metadata timestamp (`datetime.now().isoformat()` in the
source) is the explicit parameter `now`. -/
def parseContent (now : String) (content : String) (filePath : Option String) :
    AtlasMacro :=
  let lines := splitOnChar '\n' content
  let metadata := extractMetadata now lines
  let parsed := parseCommands lines
  { title := dictGetD metadata "title" "Untitled Macro"
    description := dictGetD metadata "description" ""
    commands := parsed.1
    variables' := parsed.2
    metadata := metadata
    filePath := filePath }

end AtlasParser

/-! ## Executor (`atlas_executor.py`, class `AtlasExecutor`) -/

namespace AtlasExecutor

/-- `(\w+)` immediately followed by a closing brace, as matched inside the
token pattern of `_substitute_variables`; returns the variable name and the
input after the brace. -/
def grabVarName (l : List Char) : Option (String × List Char) :=
  match l.takeWhile isWordChar, l.dropWhile isWordChar with
  | [], _ => none
  | c :: cs, '\x7d' :: after => some (String.mk (c :: cs), after)
  | _ :: _, _ => none

/-- The single left-to-right pass of `re.sub` over the text: at a dollar
sign followed by a brace and a well-formed `name` + closing brace, emit the
replacement (`variables.get(name, whole_token)`) verbatim — it is *not*
re-scanned — and continue after the token; otherwise advance one character.
The budget is decremented on every step; the wrapper supplies
`length + 1`, which a pass consuming at least one character per step cannot
exhaust. -/
def subVarsF (vars : Dict) : Nat → List Char → List Char
  | 0, l => l
  | _ + 1, [] => []
  | fuel + 1, '$' :: '\x7b' :: rest =>
    (match grabVarName rest with
    | some (name, after) =>
      ((dictGet? vars name).getD ("$\x7b" ++ name ++ "\x7d")).data ++
        subVarsF vars fuel after
    | none => '$' :: subVarsF vars fuel ('\x7b' :: rest))
  | fuel + 1, c :: rest => c :: subVarsF vars fuel rest

/-- `_substitute_variables(text)`: `None` and the empty string are returned
unchanged (`if not text`), otherwise one non-recursive `${name}`
substitution pass. -/
def substituteVariables (vars : Dict) : Option String → Option String
  | none => none
  | some s =>
    if s = "" then some s
    else some (String.mk (subVarsF vars (s.data.length + 1) s.data))

/-- `_execute_wait(command)`. The source checks `endswith('s')` *before*
`endswith('ms')` and `float()`'s `ValueError` (as well as `time.sleep`'s on
a negative duration, and the attribute error on a `None` value) is caught
by the surrounding `try`, producing a failed result with no sleep. -/
def execWait (value : Option String) : ExecutionResult × List Effect :=
  match value with
  | none => (⟨false, "Ошибка ожидания: AttributeError"⟩, [])
  | some durationStr =>
    let sleepOrFail : Rat → ExecutionResult × List Effect := fun d =>
      if d < 0 then (⟨false, "Ошибка ожидания: ValueError"⟩, [])
      else (⟨true, "Ожидание " ++ toString d ++ "с"⟩, [Effect.sleepFor d])
    if strEnds durationStr "s" then
      match pyFloat? (strDropRight durationStr 1) with
      | some d => sleepOrFail d
      | none => (⟨false, "Ошибка ожидания: ValueError"⟩, [])
    else if strEnds durationStr "ms" then
      -- unreachable: any string ending in "ms" also ends in "s" and is
      -- consumed by the branch above; kept to mirror the source text
      match pyFloat? (strDropRight durationStr 2) with
      | some d => sleepOrFail (d / 1000)
      | none => (⟨false, "Ошибка ожидания: ValueError"⟩, [])
    else
      match pyFloat? durationStr with
      | some d => sleepOrFail d
      | none => (⟨false, "Ошибка ожидания: ValueError"⟩, [])

/-- `_execute_open`: `subprocess.run(['open', '-a', app_name], check=True)`;
only the spawn's success bit is observable. A `None` target would raise
outside the handler's narrow `except` and be caught by the dispatcher. -/
def execOpen (env : Env) (target : Option String) : ExecutionResult × List Effect :=
  match target with
  | none => (⟨false, "Ошибка выполнения команды: TypeError"⟩, [])
  | some appName =>
    if env.openOk appName then
      (⟨true, "Приложение " ++ appName ++ " открыто"⟩, [Effect.openApp appName])
    else
      (⟨false, "Не удалось открыть " ++ appName⟩, [Effect.openApp appName])

/-- `_click_coordinates(x, y)`: a real pointer click (injection modelled as
succeeding). -/
def clickCoordinates (x y : Int) : ExecutionResult × List Effect :=
  (⟨true, "Клик по координатам (" ++ toString x ++ ", " ++ toString y ++ ")"⟩,
    [Effect.clickAt x y])

/-- `_click_template(template_name)` of `atlas_executor.py`: the stub that
logs `Vision Engine не реализован` and reports success without consulting
any locator and without any pointer action. -/
def clickTemplate (templateName : String) : ExecutionResult × List Effect :=
  (⟨true, "Клик по шаблону " ++ templateName ++ " (заглушка)"⟩,
    [Effect.templateClickStub templateName])

/-- `_execute_click`: route on `parameters.get('type') == 'coordinates'`;
otherwise the template path. Missing or non-integer coordinates raise and
are caught by the dispatcher's catch-all. -/
def execClick (c : AtlasCommand) : ExecutionResult × List Effect :=
  if paramGet? c.parameters "type" = some (PValue.s "coordinates") then
    match paramGet? c.parameters "x", paramGet? c.parameters "y" with
    | some (PValue.i x), some (PValue.i y) => clickCoordinates x y
    | _, _ => (⟨false, "Ошибка выполнения команды: KeyError"⟩, [])
  else
    -- f-string rendering of a missing target gives the text "None"
    clickTemplate (c.target.getD "None")

/-- `_execute_type`: substitute, then inject the literal text. -/
def execType (vars : Dict) (value : Option String) : ExecutionResult × List Effect :=
  match substituteVariables vars value with
  | none => (⟨false, "Ошибка ввода текста: TypeError"⟩, [])
  | some text => (⟨true, "Введен текст: " ++ text⟩, [Effect.typeText text])

/-- `_execute_press`. -/
def execPress (target : Option String) : ExecutionResult × List Effect :=
  match target with
  | none => (⟨false, "Ошибка нажатия клавиши: TypeError"⟩, [])
  | some key => (⟨true, "Нажата клавиша: " ++ key⟩, [Effect.pressKey key])

/-- `_execute_hotkey`: split the combination on `+`. -/
def execHotkey (target : Option String) : ExecutionResult × List Effect :=
  match target with
  | none => (⟨false, "Ошибка горячих клавиш: AttributeError"⟩, [])
  | some hk =>
    (⟨true, "Горячие клавиши: " ++ hk⟩, [Effect.hotkeyCombo (splitOnChar '+' hk)])

/-- `_execute_set_variable`: write the substituted value into the live
store (`str(None)` renders as `"None"` wherever a missing field would
surface, mirroring the f-string/`str` rendering of the source). -/
def execSetVariable (vars : Dict) (c : AtlasCommand) :
    ExecutionResult × Dict × List Effect :=
  let name := c.target.getD "None"
  let value := (substituteVariables vars c.value).getD "None"
  (⟨true, "Переменная " ++ name ++ " = " ++ value⟩, dictSet vars name value, [])

/-- `_execute_system_command`: substitute, run through the shell, fail iff
the exit code is non-zero (reporting stderr). -/
def execSystemCommand (env : Env) (vars : Dict) (value : Option String) :
    ExecutionResult × List Effect :=
  match substituteVariables vars value with
  | none => (⟨false, "Ошибка системной команды: TypeError"⟩, [])
  | some cmd =>
    if env.shellExit cmd = 0 then
      (⟨true, "Команда выполнена: " ++ cmd⟩, [Effect.shellRun cmd])
    else
      (⟨false, "Ошибка команды: " ++ env.shellStderr cmd⟩, [Effect.shellRun cmd])

/-- `_execute_log`: substitute and record the message; always succeeds. -/
def execLog (vars : Dict) (value : Option String) : ExecutionResult × List Effect :=
  let msg := (substituteVariables vars value).getD "None"
  (⟨true, "Лог: " ++ msg⟩, [Effect.logMsg msg])

/-- The command dispatch of `_execute_command` (the non-block half): route
by `command_type`; ABORT yields an immediate failure; any type without a
handler (COMMENT among them) falls to the success-reporting pass-through. -/
def execCmd (env : Env) (vars : Dict) (c : AtlasCommand) :
    ExecutionResult × Dict × List Effect :=
  match c.commandType with
  | CommandType.openApp => let r := execOpen env c.target; (r.1, vars, r.2)
  | CommandType.click => let r := execClick c; (r.1, vars, r.2)
  | CommandType.typeText => let r := execType vars c.value; (r.1, vars, r.2)
  | CommandType.wait => let r := execWait c.value; (r.1, vars, r.2)
  | CommandType.press => let r := execPress c.target; (r.1, vars, r.2)
  | CommandType.hotkey => let r := execHotkey c.target; (r.1, vars, r.2)
  | CommandType.seleniumInit =>
    (⟨true, "Selenium инициализирован для " ++ c.target.getD "None" ++ " (заглушка)"⟩,
      vars, [Effect.seleniumInit (c.target.getD "None")])
  | CommandType.seleniumClick =>
    (⟨true, "Selenium клик по " ++ c.target.getD "None" ++ " (заглушка)"⟩,
      vars, [Effect.seleniumClick (c.target.getD "None")])
  | CommandType.seleniumType =>
    let text := (substituteVariables vars c.value).getD "None"
    (⟨true, "Selenium ввод в " ++ c.target.getD "None" ++ ": " ++ text ++ " (заглушка)"⟩,
      vars, [Effect.seleniumType (c.target.getD "None") text])
  | CommandType.seleniumClose =>
    (⟨true, "Selenium закрыт (заглушка)"⟩, vars, [Effect.seleniumClose])
  | CommandType.setVariable => execSetVariable vars c
  | CommandType.systemCommand =>
    let r := execSystemCommand env vars c.value; (r.1, vars, r.2)
  | CommandType.log => let r := execLog vars c.value; (r.1, vars, r.2)
  | CommandType.abort => (⟨false, "Выполнение прервано командой abort"⟩, vars, [])
  | other => (⟨true, "Команда " ++ toString (repr other) ++ " пропущена"⟩, vars, [])

mutual

/-- `_execute_command` / `_execute_block`: execute one node, returning the
node's `ExecutionResult`, the variable store after it, and the trace of
actuator effects. The budget is spent one unit per block level; at zero
(unreachable when the caller budgets at least the nesting depth) a failed
result is returned. -/
def execNode (env : Env) : Nat → AtlasNode → Dict →
    ExecutionResult × Dict × List Effect
  | _, AtlasNode.cmd c, vars => execCmd env vars c
  | 0, AtlasNode.block _ _ _ _ _, vars =>
    (⟨false, "recursion budget exhausted (model artifact)"⟩, vars, [])
  | fuel + 1, AtlasNode.block blockType cond children _ _, vars =>
    if blockType = "repeat" then
      match cond with
      | none => (⟨false, "Ошибка repeat блока: TypeError"⟩, vars, [])
      | some s =>
        match pyInt? s with
        | none => (⟨false, "Ошибка repeat блока: ValueError"⟩, vars, [])
        | some count =>
          match runRepeatLoop env fuel children count.toNat vars with
          | (some r, vars', t) => (r, vars', t)
          | (none, vars', t) =>
            (⟨true, "Repeat блок выполнен " ++ toString count ++ " раз"⟩, vars', t)
    else if blockType = "if" then
      (⟨true, "If блок пропущен (не реализован)"⟩, vars, [])
    else if blockType = "try" then
      let body := runTrySeq env fuel children vars
      (⟨true, "Try блок выполнен"⟩, body.1, body.2)
    else (⟨false, "Неизвестный тип блока: " ++ blockType⟩, vars, [])
termination_by structural fuel => fuel

/-- The inner `for command in block.commands` of `_execute_repeat_block`:
fail-fast sequencing, returning the first failing child's own result
(`some r`), or `none` when every child succeeded. -/
def runSeqFF (env : Env) : Nat → List AtlasNode → Dict →
    Option ExecutionResult × Dict × List Effect
  | _, [], vars => (none, vars, [])
  | 0, _ :: _, vars => (some ⟨false, "recursion budget exhausted (model artifact)"⟩, vars, [])
  | fuel + 1, node :: rest, vars =>
    let step := execNode env fuel node vars
    if step.1.success then
      let tail := runSeqFF env fuel rest step.2.1
      (tail.1, tail.2.1, step.2.2 ++ tail.2.2)
    else (some step.1, step.2.1, step.2.2)
termination_by structural fuel => fuel

/-- The outer `for i in range(count)` of `_execute_repeat_block`: run the
children list once per iteration, aborting the whole loop with the first
failing child's result. -/
def runRepeatLoop (env : Env) : Nat → List AtlasNode → Nat → Dict →
    Option ExecutionResult × Dict × List Effect
  | _, _, 0, vars => (none, vars, [])
  | 0, _, _ + 1, vars =>
    (some ⟨false, "recursion budget exhausted (model artifact)"⟩, vars, [])
  | fuel + 1, children, k + 1, vars =>
    match runSeqFF env fuel children vars with
    | (some r, vars', t) => (some r, vars', t)
    | (none, vars', t) =>
      let tail := runRepeatLoop env fuel children k vars'
      (tail.1, tail.2.1, t ++ tail.2.2)
termination_by structural fuel => fuel

/-- The loop of `_execute_try_block`: every child is attempted in order; a
failing child's result is only logged (`logger.warning`) and execution
continues; the children's results do not influence the block. -/
def runTrySeq (env : Env) : Nat → List AtlasNode → Dict → Dict × List Effect
  | _, [], vars => (vars, [])
  | 0, _ :: _, vars => (vars, [])
  | fuel + 1, node :: rest, vars =>
    let step := execNode env fuel node vars
    let tail := runTrySeq env fuel rest step.2.1
    (tail.1, step.2.2 ++ tail.2)
termination_by structural fuel => fuel

end

/-- The top-level loop of `execute_macro`: commands in order, stopping at
the first failure with the failing command's 1-based index in the message. -/
def runMacroLoop (env : Env) (fuel : Nat) :
    List AtlasNode → Nat → Dict → ExecutionResult × Dict × List Effect
  | [], _, vars => (⟨true, "Макрос выполнен успешно"⟩, vars, [])
  | node :: rest, i, vars =>
    let step := execNode env fuel node vars
    if step.1.success then
      let tail := runMacroLoop env fuel rest (i + 1) step.2.1
      (tail.1, tail.2.1, step.2.2 ++ tail.2.2)
    else
      (⟨false, "Ошибка на команде " ++ toString (i + 1) ++ ": " ++ step.1.message⟩,
        step.2.1, step.2.2)

/-- `execute_macro(macro)` (for a freshly constructed executor, whose store
update `self.variables.update(macro.variables)` seeds the store with the
macro's variables). Beyond the source's single `ExecutionResult`, the final
variable store and the actuator trace are returned for specification
purposes. `fuel` bounds the block-nesting depth the run may descend
through (the Python recursion is unbounded); every theorem below
instantiates it high enough that the exhaustion branch is never taken. -/
def executeMacro (env : Env) (fuel : Nat) (m : AtlasMacro) :
    ExecutionResult × Dict × List Effect :=
  runMacroLoop env fuel m.commands 0 m.variables'

end AtlasExecutor

/-! ## Element locator (`template_matcher.py`, class `TemplateMatcher`) -/

/-- `MatchResult` of `template_matcher.py`. -/
structure MatchResult where
  found : Bool
  confidence : Rat
  centerX : Int
  centerY : Int
  topLeftX : Int
  topLeftY : Int
  width : Int
  height : Int
  templatePath : String
deriving DecidableEq, Repr

namespace TemplateMatcher

/-- The locator's world: whether the reference image resolves to a path and
decodes, its (post-Retina-resize) pixel dimensions, the display-density
ratio measured at startup, the configured `default_confidence` (0.8 in the
source), and — per probe — the best normalized-cross-correlation score of a
fresh screen capture (`cv2.minMaxLoc`'s `max_val`) and its location
(`max_loc`). The wall-clock deadline of the retry loop is abstracted into a
probe budget: the number of loop iterations the deadline admits. -/
structure LocEnv where
  templateExists : Bool
  templateDecodes : Bool
  templatePathStr : String
  templateWidth : Nat
  templateHeight : Nat
  retinaScale : Rat
  defaultConfidence : Rat
  probeScore : Nat → Rat
  probeLoc : Nat → Nat × Nat

/-- `_match_template(screenshot, template, confidence)` for probe `i`: take
the best score and location; below threshold, an unsuccessful result that
*does* carry the probe's own `max_val`; at or above it, the center of the
reference at the best top-left, divided (with `int` truncation) by the
Retina scale when that scale is not 1. -/
def matchTemplateStep (e : LocEnv) (i : Nat) (confidence : Rat) : MatchResult :=
  let maxVal := e.probeScore i
  if confidence ≤ maxVal then
    let loc := e.probeLoc i
    let centerX : Nat := loc.1 + e.templateWidth / 2
    let centerY : Nat := loc.2 + e.templateHeight / 2
    if e.retinaScale ≠ 1 then
      { found := true, confidence := maxVal
        centerX := pyTrunc ((centerX : Rat) / e.retinaScale)
        centerY := pyTrunc ((centerY : Rat) / e.retinaScale)
        topLeftX := pyTrunc ((loc.1 : Rat) / e.retinaScale)
        topLeftY := pyTrunc ((loc.2 : Rat) / e.retinaScale)
        width := pyTrunc ((e.templateWidth : Rat) / e.retinaScale)
        height := pyTrunc ((e.templateHeight : Rat) / e.retinaScale)
        templatePath := "" }
    else
      { found := true, confidence := maxVal
        centerX := centerX, centerY := centerY
        topLeftX := loc.1, topLeftY := loc.2
        width := e.templateWidth, height := e.templateHeight
        templatePath := "" }
  else
    { found := false, confidence := maxVal, centerX := 0, centerY := 0
      topLeftX := 0, topLeftY := 0, width := 0, height := 0, templatePath := "" }

/-- The `while time.time() - start_time < timeout` retry loop of
`find_template`, probe `i` onward. On success the result is returned with
the template path filled in; when the budget runs out — the deadline
passes — the source returns `MatchResult(found=False, confidence=0.0, …)`:
the constant `0.0`, not the best score seen. -/
def findTemplateLoop (e : LocEnv) (confidence : Rat) : Nat → Nat → MatchResult
  | 0, _ =>
    { found := false, confidence := 0, centerX := 0, centerY := 0
      topLeftX := 0, topLeftY := 0, width := 0, height := 0
      templatePath := e.templatePathStr }
  | budget + 1, i =>
    let r := matchTemplateStep e i confidence
    if r.found then { r with templatePath := e.templatePathStr }
    else findTemplateLoop e confidence budget (i + 1)

/-- `find_template(template_name, confidence, timeout)`: default the
threshold, fail immediately (with an all-zero result) on an unresolved or
undecodable reference image, then retry under the probe budget. -/
def findTemplate (e : LocEnv) (confidence : Option Rat) (budget : Nat) : MatchResult :=
  let conf := confidence.getD e.defaultConfidence
  if !e.templateExists then
    { found := false, confidence := 0, centerX := 0, centerY := 0
      topLeftX := 0, topLeftY := 0, width := 0, height := 0, templatePath := "" }
  else if !e.templateDecodes then
    { found := false, confidence := 0, centerX := 0, centerY := 0
      topLeftX := 0, topLeftY := 0, width := 0, height := 0
      templatePath := e.templatePathStr }
  else findTemplateLoop e conf budget 0

/-- `click_template(template_name, confidence, timeout)` of
`template_matcher.py`: locate, then click the returned center; `False`
with no pointer action when the locator found no match. -/
def clickTemplate (e : LocEnv) (confidence : Option Rat) (budget : Nat) :
    Bool × List Effect :=
  let r := findTemplate e confidence budget
  if r.found then (true, [Effect.clickAt r.centerX r.centerY])
  else (false, [])

end TemplateMatcher

/-! ## Concrete instances and specification-side helpers -/

/-- A benign world: every application launch is accepted and every shell
command exits 0. -/
def env0 : Env := ⟨fun _ => true, fun _ => 0, fun _ => ""⟩

/-- The parsed `abort` command of line 2 of the scripts used below. -/
def abortCmd0 : AtlasCommand :=
  ⟨CommandType.abort, none, none, [], 2, "  abort", 2⟩

/-- The locator's default threshold `0.8`, as an explicit reduced fraction
(kernel-computable). -/
def confDefault : Rat := ⟨4, 5, by decide, by decide⟩

/-- A probe score of `0.5`: below the default threshold but not zero. -/
def lowScore : Rat := ⟨1, 2, by decide, Nat.coprime_one_left 2⟩

/-- A locator world in which the reference image `ButtonA` resolves and
decodes but no probe ever reaches the threshold: every screen capture
scores 0.5 against it. -/
def eNoMatch : TemplateMatcher.LocEnv :=
  ⟨true, true, "templates/ButtonA.png", 10, 8, 1, confDefault,
    fun _ => lowScore, fun _ => (0, 0)⟩

/-- What a single node contributes to the parse-time seeding of
`Macro.variables`: a top-level `set_variable` command writes its pair, any
other command and *any block* (whatever its children hold) contributes
nothing. -/
def seedStep (d : Dict) : AtlasNode → Dict
  | AtlasNode.cmd c =>
    if c.commandType = CommandType.setVariable then
      dictSet d (c.target.getD "") (c.value.getD "")
    else d
  | AtlasNode.block _ _ _ _ _ => d

/-- The variables dict determined by the top level of a command list alone. -/
def seedVars (nodes : List AtlasNode) : Dict :=
  nodes.foldl seedStep []

/-- A line that matches none of the grammar prefixes of
`_parse_single_command` (so that only the final `else` — the COMMENT
fallback — can apply to it). -/
def matchesNoGrammarPrefix (line : String) : Bool :=
  !(strStarts line "open " || strStarts line "click " || strStarts line "type " ||
    strStarts line "wait " || strStarts line "press " || strStarts line "hotkey " ||
    strStarts line "selenium_init " || strStarts line "selenium_click " ||
    strStarts line "selenium_type " || line = "selenium_close" ||
    strStarts line "set_variable " || strStarts line "system_command " ||
    strStarts line "log " || line = "abort")

/-! ## Theorems -/

/-- C1: the claim reads: for every CLICK command marked as a template
click, execution delegates to the Element Locator and clicks the returned
center, with `success=false` when the locator times out — in particular
Scenario B (`repeat 3: click ButtonA / wait 1s end` with a never-matching
template) fails on iteration 1 with no further iterations. The code
disagrees: `AtlasExecutor._click_template` is an explicit stub (its `TODO`
notes the missing Vision-Engine integration) that reports success without
consulting any locator, so Scenario B's macro executes all three
iterations and reports overall success (first conjunct: full run, three
stub clicks and three sleeps, no failure). The locator itself *does*
behave as claimed (second and third conjuncts: `click_template` of
`template_matcher.py` returns `False` with no pointer action when no probe
qualifies) — the executor just never calls it. -/
theorem claimC1 :
    AtlasExecutor.executeMacro env0 50
        (AtlasParser.parseContent "2026-01-01T00:00:00"
          "repeat 3:\n  click ButtonA\n  wait 1s\nend" none) =
      (⟨true, "Макрос выполнен успешно"⟩, [],
        [Effect.templateClickStub "ButtonA", Effect.sleepFor 1,
          Effect.templateClickStub "ButtonA", Effect.sleepFor 1,
          Effect.templateClickStub "ButtonA", Effect.sleepFor 1]) ∧
    TemplateMatcher.clickTemplate eNoMatch none 30 = (false, []) ∧
    (TemplateMatcher.findTemplate eNoMatch none 30).found = false :=
  ⟨rfl, rfl, rfl⟩

/-- C3: the claim reads: `wait <N>ms` blocks for N/1000 seconds and
succeeds, equivalently to the seconds spelling (`wait 3s` ≡ `wait 3000ms`).
The code disagrees: `_execute_wait` tests `endswith('s')` *before*
`endswith('ms')` (fourth conjunct: `"3000ms"` ends in `"s"`), so the
seconds branch strips one character and calls `float("3000m")`, whose
`ValueError` is caught and turned into a failed result with no sleep
(second and third conjuncts), while `wait 3s` sleeps 3 seconds and
succeeds (first conjunct). The `ms` branch of the source is unreachable
for every input. -/
theorem claimC3 :
    AtlasExecutor.execWait (some "3s") =
      (⟨true, "Ожидание 3с"⟩, [Effect.sleepFor 3]) ∧
    (AtlasExecutor.execWait (some "3000ms")).1.success = false ∧
    (AtlasExecutor.execWait (some "3000ms")).2 = [] ∧
    strEnds "3000ms" "s" = true :=
  ⟨rfl, rfl, rfl, rfl⟩

/-- C2 counterexample: the claim reads: executing a macro stops at an ABORT
wherever it sits — *including inside a try block* — with no later command
executed and overall `success=false`. On the macro
`try: abort / log "after" end` the code instead reports overall success
and still executes the `log` after the abort: `_execute_try_block` treats
the abort's failed result like any other child failure — logged,
contained, execution continues. -/
theorem claimC2_counterexample :
    AtlasExecutor.executeMacro env0 50
        (AtlasParser.parseContent "2026-01-01T00:00:00"
          "try:\n  abort\n  log \"after\"\nend" none) =
      (⟨true, "Макрос выполнен успешно"⟩, [], [Effect.logMsg "after"]) :=
  rfl

/-- C2 amended: an ABORT command always yields `success=false`
(first conjunct); under fail-fast sequencing — the top-level command loop
and a repeat block's child loop — execution stops at it, with no later
sibling executed and no further effect (second and third conjuncts; the
macro-level result is the wrapped failure). Inside a *try* block, however,
ABORT is **not** fatal: `_execute_try_block` swallows the failure like any
other child failure, and running the block on `abort :: rest` is exactly
running it on `rest` (fourth conjunct) — which is what forces the
"always fatal regardless of containing block" claim to be weakened. -/
theorem claimC2_amended (env : Env) (fuel i : Nat) (c : AtlasCommand)
    (rest : List AtlasNode) (vars : Dict)
    (h : c.commandType = CommandType.abort) :
    AtlasExecutor.execNode env fuel (AtlasNode.cmd c) vars =
      (⟨false, "Выполнение прервано командой abort"⟩, vars, []) ∧
    AtlasExecutor.runSeqFF env (fuel + 1) (AtlasNode.cmd c :: rest) vars =
      (some ⟨false, "Выполнение прервано командой abort"⟩, vars, []) ∧
    AtlasExecutor.runMacroLoop env fuel (AtlasNode.cmd c :: rest) i vars =
      (⟨false, "Ошибка на команде " ++ toString (i + 1) ++ ": " ++
          "Выполнение прервано командой abort"⟩, vars, []) ∧
    AtlasExecutor.runTrySeq env (fuel + 1) (AtlasNode.cmd c :: rest) vars =
      AtlasExecutor.runTrySeq env fuel rest vars := by
  have hc : AtlasExecutor.execCmd env vars c =
      (⟨false, "Выполнение прервано командой abort"⟩, vars, []) := by
    simp [AtlasExecutor.execCmd, h]
  have hn : AtlasExecutor.execNode env fuel (AtlasNode.cmd c) vars =
      (⟨false, "Выполнение прервано командой abort"⟩, vars, []) := by
    cases fuel <;> simp [AtlasExecutor.execNode, hc]
  refine ⟨hn, ?_, ?_, ?_⟩
  · simp [AtlasExecutor.runSeqFF, hn]
  · simp [AtlasExecutor.runMacroLoop, hn]
  · simp [AtlasExecutor.runTrySeq, hn]

/-- C2 witness: the amended statement instantiated at the parsed `abort`
command, an empty sibling list and the empty store. -/
theorem claimC2_witness :
    AtlasExecutor.execNode env0 3 (AtlasNode.cmd abortCmd0) [] =
      (⟨false, "Выполнение прервано командой abort"⟩, [], []) ∧
    AtlasExecutor.runSeqFF env0 4 (AtlasNode.cmd abortCmd0 :: []) [] =
      (some ⟨false, "Выполнение прервано командой abort"⟩, [], []) ∧
    AtlasExecutor.runMacroLoop env0 3 (AtlasNode.cmd abortCmd0 :: []) 0 [] =
      (⟨false, "Ошибка на команде " ++ toString (0 + 1) ++ ": " ++
          "Выполнение прервано командой abort"⟩, [], []) ∧
    AtlasExecutor.runTrySeq env0 4 (AtlasNode.cmd abortCmd0 :: []) [] =
      AtlasExecutor.runTrySeq env0 3 [] [] :=
  claimC2_amended env0 3 0 abortCmd0 [] [] rfl

/-- C7: a try block reports `success=true` unconditionally — its result is
built independently of the children's outcomes (first conjunct: the block's
result is the fixed success paired with whatever the children's run
produced), and running the children on `node :: rest` always executes
`node` and then continues with `rest` from the post-`node` store,
concatenating both traces, with `node`'s result discarded (second
conjunct) — so one child's failure neither fails the block nor prevents
later children from being attempted. -/
theorem claimC7 (env : Env) (fuel : Nat) (cond : Option String)
    (children : List AtlasNode) (node : AtlasNode) (rest : List AtlasNode)
    (ln il : Nat) (vars : Dict) :
    AtlasExecutor.execNode env (fuel + 1) (AtlasNode.block "try" cond children ln il) vars =
      (⟨true, "Try блок выполнен"⟩, (AtlasExecutor.runTrySeq env fuel children vars).1,
        (AtlasExecutor.runTrySeq env fuel children vars).2) ∧
    AtlasExecutor.runTrySeq env (fuel + 1) (node :: rest) vars =
      ((AtlasExecutor.runTrySeq env fuel rest
          (AtlasExecutor.execNode env fuel node vars).2.1).1,
        (AtlasExecutor.execNode env fuel node vars).2.2 ++
          (AtlasExecutor.runTrySeq env fuel rest
            (AtlasExecutor.execNode env fuel node vars).2.1).2) := by
  constructor
  · simp [AtlasExecutor.execNode]
  · simp [AtlasExecutor.runTrySeq]

/-- C8: repeat-block semantics. (1) a count of zero runs no child and
(2) the block then reports success with no effect;
(3)–(4) for a condition parsing to count `k`, the block's result is the
loop's: the success message when all `k` passes succeed, the first failing
child's own result otherwise; (5) an iteration whose child pass fails
aborts the whole loop immediately, propagating exactly that result, state
and trace — no further iterations; (6) an iteration whose pass succeeds
prepends its trace and continues with the remaining iterations from the
updated store (strict source order, `k` times). -/
theorem claimC8 (env : Env) (fuel : Nat) (children : List AtlasNode)
    (condStr : String) (k ln il : Nat) (vars vars' : Dict)
    (r : ExecutionResult) (t : List Effect) :
    (AtlasExecutor.runRepeatLoop env fuel children 0 vars = (none, vars, [])) ∧
    (AtlasExecutor.execNode env (fuel + 1)
        (AtlasNode.block "repeat" (some "0") children ln il) vars =
      (⟨true, "Repeat блок выполнен " ++ toString (0 : Int) ++ " раз"⟩, vars, [])) ∧
    (pyInt? condStr = some (k : Int) →
      AtlasExecutor.runRepeatLoop env fuel children k vars = (none, vars', t) →
      AtlasExecutor.execNode env (fuel + 1)
          (AtlasNode.block "repeat" (some condStr) children ln il) vars =
        (⟨true, "Repeat блок выполнен " ++ toString (k : Int) ++ " раз"⟩, vars', t)) ∧
    (pyInt? condStr = some (k : Int) →
      AtlasExecutor.runRepeatLoop env fuel children k vars = (some r, vars', t) →
      AtlasExecutor.execNode env (fuel + 1)
          (AtlasNode.block "repeat" (some condStr) children ln il) vars =
        (r, vars', t)) ∧
    (AtlasExecutor.runSeqFF env fuel children vars = (some r, vars', t) →
      AtlasExecutor.runRepeatLoop env (fuel + 1) children (k + 1) vars =
        (some r, vars', t)) ∧
    (AtlasExecutor.runSeqFF env fuel children vars = (none, vars', t) →
      AtlasExecutor.runRepeatLoop env (fuel + 1) children (k + 1) vars =
        ((AtlasExecutor.runRepeatLoop env fuel children k vars').1,
          (AtlasExecutor.runRepeatLoop env fuel children k vars').2.1,
          t ++ (AtlasExecutor.runRepeatLoop env fuel children k vars').2.2)) := by
  have hz : AtlasExecutor.runRepeatLoop env fuel children 0 vars = (none, vars, []) := by
    cases fuel <;> rfl
  refine ⟨hz, ?_, ?_, ?_, ?_, ?_⟩
  · have hp : pyInt? "0" = some 0 := rfl
    simp [AtlasExecutor.execNode, hp, hz]
  · intro h1 h2
    simp [AtlasExecutor.execNode, h1, h2]
  · intro h1 h2
    simp [AtlasExecutor.execNode, h1, h2]
  · intro h1
    simp [AtlasExecutor.runRepeatLoop, h1]
  · intro h1
    simp [AtlasExecutor.runRepeatLoop, h1]

/-- C8 witness: a `repeat` block over a single `abort` child: a count of 0
succeeds with no effect; with count 2, iteration 1's failure propagates as
the block's result (no second iteration). -/
theorem claimC8_witness :
    AtlasExecutor.execNode env0 6 (AtlasNode.block "repeat" (some "0")
        [AtlasNode.cmd abortCmd0] 1 0) [] =
      (⟨true, "Repeat блок выполнен " ++ toString (0 : Int) ++ " раз"⟩, [], []) ∧
    AtlasExecutor.runRepeatLoop env0 6 [AtlasNode.cmd abortCmd0] 2 [] =
      (some ⟨false, "Выполнение прервано командой abort"⟩, [], []) ∧
    AtlasExecutor.execNode env0 6 (AtlasNode.block "repeat" (some "2")
        [AtlasNode.cmd abortCmd0] 1 0) [] =
      (⟨false, "Выполнение прервано командой abort"⟩, [], []) := by
  refine ⟨(claimC8 env0 5 [AtlasNode.cmd abortCmd0] "0" 0 1 0 [] []
      ⟨false, ""⟩ []).2.1, ?_, ?_⟩
  · exact (claimC8 env0 5 [AtlasNode.cmd abortCmd0] "2" 1 1 0 [] []
      ⟨false, "Выполнение прервано командой abort"⟩ []).2.2.2.2.1 rfl
  · exact (claimC8 env0 5 [AtlasNode.cmd abortCmd0] "2" 2 1 0 [] []
      ⟨false, "Выполнение прервано командой abort"⟩ []).2.2.2.1 rfl rfl

/-- A maximal run of word characters followed by a closing brace splits off
exactly at the brace. -/
theorem wordRun_split (nm t : List Char) (h : ∀ c ∈ nm, isWordChar c = true) :
    (nm ++ '\x7d' :: t).takeWhile isWordChar = nm ∧
    (nm ++ '\x7d' :: t).dropWhile isWordChar = '\x7d' :: t := by
  induction nm with
  | nil =>
    constructor <;>
      simp [List.takeWhile_cons, List.dropWhile_cons,
        show isWordChar '\x7d' = false from rfl]
  | cons c cs ih =>
    have hc : isWordChar c = true := h c (List.mem_cons_self c cs)
    have ih' := ih (fun d hd => h d (List.mem_cons_of_mem c hd))
    constructor <;>
      simp [List.takeWhile_cons, List.dropWhile_cons, hc, ih'.1, ih'.2]

/-- The token scanner of the substitution pass recognizes exactly a
non-empty word-character name up to the closing brace. -/
theorem grabVarName_token (nm t : List Char) (h1 : nm ≠ [])
    (h2 : ∀ c ∈ nm, isWordChar c = true) :
    AtlasExecutor.grabVarName (nm ++ '\x7d' :: t) = some (String.mk nm, t) := by
  obtain ⟨tw, dw⟩ := wordRun_split nm t h2
  cases nm with
  | nil => exact absurd rfl h1
  | cons c cs =>
    unfold AtlasExecutor.grabVarName
    rw [tw, dw]
    rfl

/-- C9: the substitution pass is single and non-recursive. At a
`${name}` token (any non-empty word-character name) the pass emits the
store's value when the name is bound — and the token itself verbatim when
it is not — as raw characters, then continues scanning strictly *after*
the token: the replacement's characters are appended in front of the
recursive call on the remainder `t` alone, so a replacement containing
`${y}` is never re-scanned in this pass, and each token is consumed (and
so replaced) at most once. -/
theorem claimC9 (vars : Dict) (name : String) (t : List Char) (fuel : Nat)
    (h1 : name.data ≠ []) (h2 : ∀ c ∈ name.data, isWordChar c = true) :
    AtlasExecutor.subVarsF vars (fuel + 1)
        ('$' :: '\x7b' :: (name.data ++ '\x7d' :: t)) =
      ((dictGet? vars name).getD ("$\x7b" ++ name ++ "\x7d")).data ++
        AtlasExecutor.subVarsF vars fuel t := by
  have hg := grabVarName_token name.data t h1 h2
  simp [AtlasExecutor.subVarsF, hg]

/-- C9 witness: with `x ↦ "${y}"` and `y ↦ "z"` in the store,
substituting in `"${x}"` yields `"${y}"` — not `"z"` — and an unbound
`${q}` passes through verbatim. -/
theorem claimC9_witness :
    AtlasExecutor.substituteVariables [("x", "$\x7by\x7d"), ("y", "z")]
        (some "$\x7bx\x7d") = some "$\x7by\x7d" ∧
    AtlasExecutor.substituteVariables [] (some "$\x7bq\x7d") = some "$\x7bq\x7d" := by
  have h1 := claimC9 [("x", "$\x7by\x7d"), ("y", "z")] "x" [] 4 (by decide) (by decide)
  have h2 := claimC9 [] "q" [] 4 (by decide) (by decide)
  constructor
  · exact (congrArg (fun l => some (String.mk l)) h1).trans rfl
  · exact (congrArg (fun l => some (String.mk l)) h2).trans rfl

/-- The variables dict accumulated by the top-level parse loop is exactly
the fold of `seedStep` over the commands it has emitted: blocks — whatever
`set_variable` commands sit among their children — contribute nothing. -/
theorem parseCommandsLoop_seed (lines : List String) (fuel : Nat) :
    ∀ (i : Nat) (acc : List AtlasNode) (vars : Dict),
      vars = acc.foldl seedStep [] →
      (AtlasParser.parseCommandsLoop lines fuel i acc vars).2 =
        (AtlasParser.parseCommandsLoop lines fuel i acc vars).1.foldl seedStep [] := by
  induction fuel with
  | zero =>
    intro i acc vars h
    simpa [AtlasParser.parseCommandsLoop] using h
  | succ fuel ih =>
    intro i acc vars h
    rw [AtlasParser.parseCommandsLoop]
    dsimp only
    split
    · split
      · exact ih _ _ _ h
      · split
        · apply ih
          simp only [List.foldl_append, List.foldl_cons, List.foldl_nil, ← h]
          cases fuel <;> rfl
        · split
          · apply ih
            simp only [List.foldl_append, List.foldl_cons, List.foldl_nil, seedStep, ← h]
          · exact ih _ _ _ h
    · simpa using h

/-- C10: for every script, `Macro.variables` equals the `seedStep` fold
over the *top level* of the parsed command list alone — a `set_variable`
nested in any block contributes no entry (first conjunct); concretely,
`repeat 2: set_variable x="1" end` parses to an empty variables dict
(second conjunct) while the `set_variable` command does sit among the
block's children (third conjunct), so its value exists only once the
command runs. -/
theorem claimC10 (now content : String) (fp : Option String) :
    (AtlasParser.parseContent now content fp).variables' =
      seedVars (AtlasParser.parseContent now content fp).commands ∧
    (AtlasParser.parseContent "2026-01-01" "repeat 2:\n  set_variable x=\"1\"\nend"
        none).variables' = [] ∧
    (AtlasParser.parseContent "2026-01-01" "repeat 2:\n  set_variable x=\"1\"\nend"
        none).commands =
      [AtlasNode.block "repeat" (some "2")
        [AtlasNode.cmd ⟨CommandType.setVariable, some "x", some "1", [], 2,
          "  set_variable x=\"1\"", 2⟩] 1 0] := by
  refine ⟨?_, rfl, rfl⟩
  exact parseCommandsLoop_seed _ _ 0 [] [] rfl

/-- C4 amended: when the reference image resolves and decodes but no probe
the budget admits reaches the threshold, `find_template` returns
`found=false` with `confidence` equal to the **constant 0.0** — the best
score observed across the probes is discarded (only an individual probe's
internal `MatchResult` carries that probe's own `max_val`), so the
timeout return does not let callers distinguish "low similarity" from
"not attempted" by its confidence field. -/
theorem claimC4_amended (e : TemplateMatcher.LocEnv) (conf : Option Rat) (budget : Nat)
    (h1 : e.templateExists = true) (h2 : e.templateDecodes = true)
    (h3 : ∀ j, e.probeScore j < conf.getD e.defaultConfidence) :
    TemplateMatcher.findTemplate e conf budget =
      { found := false, confidence := 0, centerX := 0, centerY := 0, topLeftX := 0,
        topLeftY := 0, width := 0, height := 0, templatePath := e.templatePathStr } := by
  have hloop : ∀ (b i : Nat),
      TemplateMatcher.findTemplateLoop e (conf.getD e.defaultConfidence) b i =
        { found := false, confidence := 0, centerX := 0, centerY := 0, topLeftX := 0,
          topLeftY := 0, width := 0, height := 0, templatePath := e.templatePathStr } := by
    intro b
    induction b with
    | zero => intro i; rfl
    | succ b ih =>
      intro i
      rw [TemplateMatcher.findTemplateLoop]
      have hs : TemplateMatcher.matchTemplateStep e i (conf.getD e.defaultConfidence) =
          { found := false, confidence := e.probeScore i, centerX := 0, centerY := 0,
            topLeftX := 0, topLeftY := 0, width := 0, height := 0,
            templatePath := "" } := by
        simp [TemplateMatcher.matchTemplateStep, not_le.mpr (h3 i)]
      simp [hs, ih]
  rw [TemplateMatcher.findTemplate]
  simp [h1, h2, hloop]

/-- C4 witness: the amended statement at the concrete never-matching world
`eNoMatch` (every probe scores 0.5 against the default 0.8 threshold). -/
theorem claimC4_witness :
    TemplateMatcher.findTemplate eNoMatch none 5 =
      { found := false, confidence := 0, centerX := 0, centerY := 0, topLeftX := 0,
        topLeftY := 0, width := 0, height := 0,
        templatePath := "templates/ButtonA.png" } :=
  claimC4_amended eNoMatch none 5 rfl rfl
    (fun _ => show lowScore < confDefault by decide)

/-- C4 counterexample: the claim reads: the timeout return's confidence
equals the best score observed over all probes. In `eNoMatch` every probe
scores 0.5 (second and third conjuncts), yet the timeout return carries
confidence 0 (first conjunct) and 0.5 ≠ 0 (fourth conjunct) — the best
observed score is not what is returned. -/
theorem claimC4_counterexample :
    TemplateMatcher.findTemplate eNoMatch none 2 =
      { found := false, confidence := 0, centerX := 0, centerY := 0, topLeftX := 0,
        topLeftY := 0, width := 0, height := 0,
        templatePath := "templates/ButtonA.png" } ∧
    eNoMatch.probeScore 0 = lowScore ∧ eNoMatch.probeScore 1 = lowScore ∧
    lowScore ≠ 0 :=
  ⟨rfl, rfl, rfl, by decide⟩

/-- `_extract_metadata`'s per-line step never touches the `'generated'`
entry at the head of the dict: the four keys it may assign differ from it. -/
theorem metaStep_genCons (now : String) (rest : Dict) (line : String) :
    AtlasParser.metaStep (("generated", now) :: rest) line =
      ("generated", now) :: AtlasParser.metaStep rest line := by
  unfold AtlasParser.metaStep
  dsimp only
  split
  · split
    · simp [dictSet]
    · split
      · simp [dictSet]
      · split
        · simp [dictSet]
        · split
          · simp [dictSet]
          · rfl
  · rfl

/-- The metadata fold keeps `('generated', now)` at the head, untouched. -/
theorem extractMetadata_genCons (now : String) (lines : List String) :
    ∀ rest : Dict,
      List.foldl AtlasParser.metaStep (("generated", now) :: rest) lines =
        ("generated", now) :: List.foldl AtlasParser.metaStep rest lines := by
  induction lines with
  | nil => intro rest; rfl
  | cons l ls ih =>
    intro rest
    simp only [List.foldl_cons, metaStep_genCons]
    exact ih _

/-- C5 amended: `parse_content` is deterministic in everything except the
`'generated'` metadata timestamp, which records the wall-clock parse time:
for any two clock readings, the two parses agree on title, description,
commands, variables, file path, and on the whole metadata dict once the
`'generated'` entry is set aside — and two calls that read the same clock
value produce fully identical Macros (last conjunct). -/
theorem claimC5_amended (now1 now2 content : String) (fp : Option String) :
    (AtlasParser.parseContent now1 content fp).title =
      (AtlasParser.parseContent now2 content fp).title ∧
    (AtlasParser.parseContent now1 content fp).description =
      (AtlasParser.parseContent now2 content fp).description ∧
    (AtlasParser.parseContent now1 content fp).commands =
      (AtlasParser.parseContent now2 content fp).commands ∧
    (AtlasParser.parseContent now1 content fp).variables' =
      (AtlasParser.parseContent now2 content fp).variables' ∧
    (AtlasParser.parseContent now1 content fp).filePath =
      (AtlasParser.parseContent now2 content fp).filePath ∧
    dictErase (AtlasParser.parseContent now1 content fp).metadata "generated" =
      dictErase (AtlasParser.parseContent now2 content fp).metadata "generated" ∧
    (now1 = now2 →
      AtlasParser.parseContent now1 content fp =
        AtlasParser.parseContent now2 content fp) := by
  have hm : ∀ now : String,
      AtlasParser.extractMetadata now (splitOnChar '\n' content) =
        ("generated", now) :: List.foldl AtlasParser.metaStep
          [("platform", "macOS"), ("version", "1.0")] (splitOnChar '\n' content) :=
    fun now => extractMetadata_genCons now _ _
  refine ⟨?_, ?_, rfl, rfl, rfl, ?_, ?_⟩
  · show dictGetD (AtlasParser.extractMetadata now1 (splitOnChar '\n' content))
        "title" "Untitled Macro" =
      dictGetD (AtlasParser.extractMetadata now2 (splitOnChar '\n' content))
        "title" "Untitled Macro"
    rw [hm now1, hm now2]
    simp [dictGetD, dictGet?]
  · show dictGetD (AtlasParser.extractMetadata now1 (splitOnChar '\n' content))
        "description" "" =
      dictGetD (AtlasParser.extractMetadata now2 (splitOnChar '\n' content))
        "description" ""
    rw [hm now1, hm now2]
    simp [dictGetD, dictGet?]
  · show dictErase (AtlasParser.extractMetadata now1 (splitOnChar '\n' content))
        "generated" =
      dictErase (AtlasParser.extractMetadata now2 (splitOnChar '\n' content)) "generated"
    rw [hm now1, hm now2]
    simp [dictErase, List.filter]
  · intro h
    rw [h]

/-- C5 counterexample: the claim reads: two parses of identical text yield
structurally identical Macros, *metadata included*. Two parses of
`open Calc` whose clock readings differ by one second disagree on the
`'generated'` metadata entry, so the Macros are not equal. -/
theorem claimC5_counterexample :
    AtlasParser.parseContent "2026-01-01T00:00:00" "open Calc" none ≠
      AtlasParser.parseContent "2026-01-01T00:00:01" "open Calc" none := by
  intro h
  exact absurd (congrArg AtlasMacro.metadata h) (by decide)

/-- C5 witness: the amended statement instantiated: equal clock readings
give a fully identical parse, and parses under different readings still
agree on the command tree. -/
theorem claimC5_witness :
    AtlasParser.parseContent "2026-01-01" "open Calc" none =
      AtlasParser.parseContent "2026-01-01" "open Calc" none ∧
    (AtlasParser.parseContent "2026-01-01" "open Calc" none).commands =
      (AtlasParser.parseContent "2026-02-02" "open Calc" none).commands :=
  ⟨(claimC5_amended "2026-01-01" "2026-01-01" "open Calc" none).2.2.2.2.2.2 rfl,
    (claimC5_amended "2026-01-01" "2026-02-02" "open Calc" none).2.2.1⟩

/-- C6 amended: `_parse_single_command` never raises, and the two kinds of
unrecognized lines degrade differently. A non-blank line matching *no*
grammar prefix reaches the final `else` and yields exactly one no-op
COMMENT command (first conjunct). A line whose prefix matches a grammar
but whose remainder fails that grammar's pattern — `type hello` without
quotes — falls out of the `elif` chain and yields **no** command at all:
it is silently dropped, not turned into a comment (second conjunct, shown
for the `type` grammar). -/
theorem claimC6_amended (line raw : String) (n : Nat) :
    (pyStrip line ≠ "" → matchesNoGrammarPrefix line = true →
      AtlasParser.parseSingleCommand line n raw =
        some ⟨CommandType.comment, none, some line, [], n, raw, indentOf raw⟩) ∧
    (pyStrip line ≠ "" → strStarts line "open " = false →
      strStarts line "click " = false → strStarts line "type " = true →
      AtlasParser.typeArg? line.data = none →
      AtlasParser.parseSingleCommand line n raw = none) := by
  constructor
  · intro hne hpre
    simp only [matchesNoGrammarPrefix, Bool.not_eq_true', Bool.or_eq_false_iff,
      decide_eq_false_iff_not] at hpre
    obtain ⟨⟨⟨⟨⟨⟨⟨⟨⟨⟨⟨⟨⟨p1, p2⟩, p3⟩, p4⟩, p5⟩, p6⟩, p7⟩, p8⟩, p9⟩, p10⟩, p11⟩,
      p12⟩, p13⟩, p14⟩ := hpre
    simp [AtlasParser.parseSingleCommand, hne, p1, p2, p3, p4, p5, p6, p7, p8, p9,
      p10, p11, p12, p13, p14]
  · intro hne h1 h2 h3 h4
    simp [AtlasParser.parseSingleCommand, hne, h1, h2, h3, h4]

/-- C6 witness: the amended statement at the unknown-prefix line
`flibber 7` (one COMMENT command) and at the prefix-matching but
pattern-failing line `type hello` (no command). -/
theorem claimC6_witness :
    AtlasParser.parseSingleCommand "flibber 7" 1 "flibber 7" =
      some ⟨CommandType.comment, none, some "flibber 7", [], 1, "flibber 7",
        indentOf "flibber 7"⟩ ∧
    AtlasParser.parseSingleCommand "type hello" 1 "type hello" = none :=
  ⟨(claimC6_amended "flibber 7" "flibber 7" 1).1 (by decide) (by decide),
    (claimC6_amended "type hello" "type hello" 1).2 (by decide) rfl rfl rfl rfl⟩

/-- C6 counterexample: the claim reads: a line whose prefix matches a
grammar but whose remainder fails the pattern (e.g. `type hello`) yields
exactly one no-op comment command in the Macro. Parsing the one-line
script `type hello` yields an *empty* command list — the line is dropped,
`_parse_single_command` having returned `None` for it. -/
theorem claimC6_counterexample :
    (AtlasParser.parseContent "2026-01-01" "type hello" none).commands = [] ∧
    AtlasParser.parseSingleCommand "type hello" 1 "type hello" = none :=
  ⟨rfl, rfl⟩
